import Mathlib

/-!
# Verification of the uTm-dashboard sales-analytics pipeline

A shallow embedding of `analytics.py` (functions `analyze_sales`,
`compare_files`, `update_dashboard_html`, and the `__main__` entry point)
together with proofs of the specified properties.

Modelling conventions:
* A pandas dataframe row becomes a `SalesRecord`; an absent (NaN) cell of an
  attribution column becomes `none` of `Option String`.
* Monetary amounts are rationals (`ℚ`); ticket counts and row counts are `ℕ`.
* The payment timestamp is a natural number of seconds; the derived calendar
  date (`df['Payment date (UTC)'].dt.date`) is its truncation to whole days.
* `df.groupby(keys)` is modelled as: the deduplicated list of keys occurring
  in the data, each mapped to the aggregates of the rows matching that key.
  As in pandas (`dropna=True`, the default), rows whose grouping key contains
  an absent value are excluded from the grouping.
* `sort_values('Revenue', ascending=False)` is modelled with
  `List.insertionSort` under the relation "has revenue ≥"; any order
  compatible with non-increasing revenue refines the spec, which leaves the
  tie order unspecified.
-/

/-- One transaction row of the sales export (one row of the dataframe read by
`analyze_sales`).  The four `utm_*` columns are optional: an empty / absent
cell is `none`. -/
structure SalesRecord where
  orderId : String
  paid : ℚ
  tickets : ℕ
  paymentTs : ℕ
  utm_source : Option String
  utm_medium : Option String
  utm_content : Option String
  utm_campaign : Option String
deriving DecidableEq

/-- `df['Date'] = df['Payment date (UTC)'].dt.date`: truncation of the payment
timestamp to calendar-day granularity. -/
def SalesRecord.date (r : SalesRecord) : ℕ := r.paymentTs / 86400

/-- The `summary` dict built by `analyze_sales` (lines 27–30 and 59–64). -/
structure Summary where
  total_sales : ℚ
  total_tickets : ℕ
  total_orders : ℕ
  avg_ticket : ℚ
deriving DecidableEq

/-- One row of the `daily` frame (columns renamed on line 38). -/
structure DailyRow where
  Date : ℕ
  Revenue : ℚ
  Tickets : ℕ
  Orders : ℕ
deriving DecidableEq

/-- One row of the `utm_analysis` frame (columns renamed on line 46). -/
structure UtmRow where
  Source : String
  Medium : String
  Content : String
  Revenue : ℚ
  Tickets : ℕ
  Orders : ℕ
deriving DecidableEq

/-- One row of the `campaign_analysis` frame (columns renamed on line 55). -/
structure CampaignRow where
  Campaign : String
  Revenue : ℚ
  Tickets : ℕ
  Orders : ℕ
deriving DecidableEq

/-- The dict returned by `analyze_sales` (lines 58–69). -/
structure Analysis where
  summary : Summary
  daily : List DailyRow
  utm : List UtmRow
  campaigns : List CampaignRow
  raw_data : List SalesRecord
deriving DecidableEq

/-- `df['Paid'].sum()` over a list of rows. -/
def sumPaid (rs : List SalesRecord) : ℚ := (rs.map (·.paid)).sum

/-- `df['Tickets'].sum()` over a list of rows. -/
def sumTickets (rs : List SalesRecord) : ℕ := (rs.map (·.tickets)).sum

/-- The grouping key list for `df.groupby('Date')` (line 33): the distinct
calendar dates, in ascending order (pandas sorts group keys). -/
def dailyKeys (rs : List SalesRecord) : List ℕ :=
  List.insertionSort (· ≤ ·) (rs.map SalesRecord.date).dedup

/-- The rows falling on calendar date `d`. -/
def groupDaily (rs : List SalesRecord) (d : ℕ) : List SalesRecord :=
  rs.filter (fun r => decide (r.date = d))

/-- The `daily` frame of `analyze_sales` (lines 33–38): per-date sums of
`Paid` and `Tickets` and the count of `Order #`. -/
def dailyRollup (rs : List SalesRecord) : List DailyRow :=
  (dailyKeys rs).map (fun d =>
    { Date := d
      Revenue := sumPaid (groupDaily rs d)
      Tickets := sumTickets (groupDaily rs d)
      Orders := (groupDaily rs d).length })

/-- The attribution triple of a row, when all three columns are present.
Rows where any of the three is absent get `none` and are dropped by the
grouping, exactly as pandas `groupby` drops NaN keys. -/
def SalesRecord.utmKey (r : SalesRecord) : Option (String × String × String) :=
  match r.utm_source, r.utm_medium, r.utm_content with
  | some s, some m, some c => some (s, m, c)
  | _, _, _ => none

/-- Distinct attribution triples occurring (fully present) in the data. -/
def utmKeys (rs : List SalesRecord) : List (String × String × String) :=
  (rs.filterMap SalesRecord.utmKey).dedup

/-- The rows carrying exactly the attribution triple `k`. -/
def groupUtm (rs : List SalesRecord) (k : String × String × String) :
    List SalesRecord :=
  rs.filter (fun r => decide (r.utmKey = some k))

/-- The `utm_analysis` frame before sorting (lines 41–46). -/
def utmUnsorted (rs : List SalesRecord) : List UtmRow :=
  (utmKeys rs).map (fun k =>
    { Source := k.1
      Medium := k.2.1
      Content := k.2.2
      Revenue := sumPaid (groupUtm rs k)
      Tickets := sumTickets (groupUtm rs k)
      Orders := (groupUtm rs k).length })

/-- "Comes no later under revenue-descending order": the relation used to
model `sort_values('Revenue', ascending=False)` on line 47. -/
def utmRowGE (a b : UtmRow) : Prop := b.Revenue ≤ a.Revenue

instance : DecidableRel utmRowGE :=
  fun a b => inferInstanceAs (Decidable (b.Revenue ≤ a.Revenue))

instance : IsTotal UtmRow utmRowGE := ⟨fun a b => le_total b.Revenue a.Revenue⟩

instance : IsTrans UtmRow utmRowGE := ⟨fun _ _ _ h1 h2 => le_trans h2 h1⟩

/-- The `utm_analysis` frame after `sort_values('Revenue', ascending=False)`
(line 47). -/
def utmRollup (rs : List SalesRecord) : List UtmRow :=
  List.insertionSort utmRowGE (utmUnsorted rs)

/-- Distinct campaigns occurring (present) in the data; NaN dropped as in
pandas `groupby('utm_campaign')`. -/
def campaignKeys (rs : List SalesRecord) : List String :=
  (rs.filterMap (·.utm_campaign)).dedup

/-- The rows carrying campaign `c`. -/
def groupCampaign (rs : List SalesRecord) (c : String) : List SalesRecord :=
  rs.filter (fun r => decide (r.utm_campaign = some c))

/-- Revenue-descending order on campaign rows (line 56). -/
def campaignRowGE (a b : CampaignRow) : Prop := b.Revenue ≤ a.Revenue

instance : DecidableRel campaignRowGE :=
  fun a b => inferInstanceAs (Decidable (b.Revenue ≤ a.Revenue))

instance : IsTotal CampaignRow campaignRowGE :=
  ⟨fun a b => le_total b.Revenue a.Revenue⟩

instance : IsTrans CampaignRow campaignRowGE :=
  ⟨fun _ _ _ h1 h2 => le_trans h2 h1⟩

/-- The `campaign_analysis` frame (lines 50–56). -/
def campaignRollup (rs : List SalesRecord) : List CampaignRow :=
  List.insertionSort campaignRowGE
    ((campaignKeys rs).map (fun c =>
      { Campaign := c
        Revenue := sumPaid (groupCampaign rs c)
        Tickets := sumTickets (groupCampaign rs c)
        Orders := (groupCampaign rs c).length }))

/-- `analyze_sales` (lines 13–69), as a pure function from the ingested row
list to the returned dict.  `total_sales = df['Paid'].sum()`,
`total_tickets = df['Tickets'].sum()`, `total_orders = len(df)`,
`avg_ticket = total_sales / total_tickets if total_tickets > 0 else 0`. -/
def analyze_sales (rs : List SalesRecord) : Analysis :=
  { summary :=
      { total_sales := sumPaid rs
        total_tickets := sumTickets rs
        total_orders := rs.length
        avg_ticket :=
          if 0 < sumTickets rs then sumPaid rs / (sumTickets rs : ℚ) else 0 }
    daily := dailyRollup rs
    utm := utmRollup rs
    campaigns := campaignRollup rs
    raw_data := rs }

/-- The order identifiers of a row list (`df['Order #'].tolist()`). -/
def orderIds (rs : List SalesRecord) : List String := rs.map (·.orderId)

/-- The `comparison` dict built by `compare_files` (lines 89–96).  The Python
`set` of new order ids is modelled as a duplicate-free list. -/
structure Comparison where
  sales_diff : ℚ
  tickets_diff : ℤ
  orders_diff : ℤ
  new_orders : List String
  old_summary : Summary
  new_summary : Summary
deriving DecidableEq

/-- `compare_files(old_file, new_file)` (lines 71–98): totals deltas
`new − old` and the set difference of order identifiers
`set(new ids) - set(old ids)`. -/
def compare_files (oldRecs newRecs : List SalesRecord) : Comparison :=
  { sales_diff :=
      (analyze_sales newRecs).summary.total_sales
        - (analyze_sales oldRecs).summary.total_sales
    tickets_diff :=
      ((analyze_sales newRecs).summary.total_tickets : ℤ)
        - ((analyze_sales oldRecs).summary.total_tickets : ℤ)
    orders_diff :=
      ((analyze_sales newRecs).summary.total_orders : ℤ)
        - ((analyze_sales oldRecs).summary.total_orders : ℤ)
    new_orders :=
      (orderIds newRecs).dedup.filter
        (fun id => decide (id ∉ orderIds oldRecs))
    old_summary := (analyze_sales oldRecs).summary
    new_summary := (analyze_sales newRecs).summary }

/-- `u['Source'] or 'Direct'` (line 158): the Python `or` falls through to
the placeholder exactly when the string is empty (the falsy string). -/
def orDirect (s : String) : String := if s = "" then "Direct" else s

/-- The dynamic values interpolated into the HTML document written by
`update_dashboard_html` (lines 150–371); everything else in the written file
is literal template text. -/
structure DashboardEmbed where
  daily_dates : List ℕ
  daily_revenue : List ℚ
  daily_tickets : List ℕ
  utm_labels : List String
  utm_values : List ℚ
  table_rows : List UtmRow
  card_summary : Summary
deriving DecidableEq

/-- `update_dashboard_html` (lines 150–376), restricted to the data it embeds:
`daily_dates`, `daily_revenue` and `daily_tickets` range over ALL entries of
`data['daily']` (lines 154–156 have no slice); `utm_labels` and `utm_values`
take `data['utm'][:5]` (lines 158–159); the performance table interpolates
`data['utm'][:10]` (line 309); the summary cards interpolate
`data['summary']` (lines 268–281). -/
def update_dashboard_html (data : Analysis) : DashboardEmbed :=
  { daily_dates := data.daily.map (·.Date)
    daily_revenue := data.daily.map (·.Revenue)
    daily_tickets := data.daily.map (·.Tickets)
    utm_labels := (data.utm.take 5).map (fun u => orDirect u.Source)
    utm_values := (data.utm.take 5).map (·.Revenue)
    table_rows := data.utm.take 10
    card_summary := data.summary }

/-- The branch taken by the `__main__` block (lines 378–395) as a function of
`sys.argv` (program name included). -/
inductive MainAction where
  | usage
  | single (newFile : String)
  | compareTwo (oldFile newFile : String)
deriving DecidableEq

/-- Lines 379–386: `len(sys.argv) < 2` prints usage and exits; otherwise
`new_file = sys.argv[1]`, `old_file = sys.argv[2] if len(sys.argv) > 2 else
None`, and the branch is `if old_file:` — a Python truthiness test, so both
`None` (fewer than three argv entries) and the empty string select
single-file mode. -/
def mainAction : List String → MainAction
  | _ :: newF :: oldF :: _ =>
      if oldF = "" then .single newF else .compareTwo oldF newF
  | _ :: newF :: [] => .single newF
  | _ => .usage

/-- Observable side effects of one run of the `__main__` block, in order. -/
inductive Effect where
  | printUsage
  | exitCode (c : ℕ)
  | printReport
  | writeHtml (path : String)
  | printHtmlDone
deriving DecidableEq

/-- The effect trace of the `__main__` block (lines 378–395): with no path
argument, usage then `sys.exit(1)` and nothing else; when `old_file` is
truthy (a third argv entry that is not the empty string), only the report is
printed; otherwise — one path, or an empty-string second path falsified by
the `if old_file:` truthiness test — the report is printed, `index.html` is
written and the completion notice printed. -/
def mainEffects : List String → List Effect
  | _ :: _ :: oldF :: _ =>
      if oldF = "" then [.printReport, .writeHtml "index.html", .printHtmlDone]
      else [.printReport]
  | _ :: _ :: [] => [.printReport, .writeHtml "index.html", .printHtmlDone]
  | _ => [.printUsage, .exitCode 1]

/-! ## Generic grouping lemmas -/

/-- Splitting a mapped sum along a Boolean predicate. -/
theorem sum_map_filter_split {β M : Type} [AddCommMonoid M] (p : β → Bool)
    (f : β → M) (rs : List β) :
    ((rs.filter p).map f).sum + ((rs.filter (fun a => !(p a))).map f).sum
      = (rs.map f).sum := by
  induction rs with
  | nil => simp
  | cons r t ih =>
    by_cases h : p r = true
    · simp only [List.filter_cons, h, Bool.not_true, List.map_cons, List.sum_cons,
        if_true, if_false, Bool.false_eq_true]
      rw [add_assoc, ih]
    · have h' : p r = false := by simpa using h
      simp only [List.filter_cons, h', Bool.not_false, Bool.false_eq_true,
        if_true, if_false, List.map_cons, List.sum_cons]
      rw [add_left_comm, ih]

/-- A mapped sum decomposes into the sums over the fibers of a key function,
provided the key list is duplicate-free and covers every row. -/
theorem sum_map_fiber {β κ M : Type} [DecidableEq κ] [AddCommMonoid M]
    (f : β → M) (key : β → κ) :
    ∀ (keys : List κ) (rs : List β), keys.Nodup → (∀ r ∈ rs, key r ∈ keys) →
      (keys.map
        (fun k => ((rs.filter (fun r => decide (key r = k))).map f).sum)).sum
        = (rs.map f).sum := by
  intro keys
  induction keys with
  | nil =>
    intro rs _ hcov
    cases rs with
    | nil => simp
    | cons r t => exact absurd (hcov r (List.mem_cons_self r t)) (List.not_mem_nil _)
  | cons k ks ih =>
    intro rs hnd hcov
    have hk : k ∉ ks := (List.nodup_cons.mp hnd).1
    have hks : ks.Nodup := (List.nodup_cons.mp hnd).2
    have hmapeq :
        ks.map (fun d => ((rs.filter (fun r => decide (key r = d))).map f).sum)
          = ks.map (fun d =>
              (((rs.filter (fun r => !(decide (key r = k)))).filter
                 (fun r => decide (key r = d))).map f).sum) := by
      apply List.map_congr_left
      intro d hd
      have hdk : d ≠ k := fun h => hk (h ▸ hd)
      rw [List.filter_filter]
      have hfil : rs.filter (fun a => decide (key a = d) && !(decide (key a = k)))
          = rs.filter (fun r => decide (key r = d)) := by
        apply List.filter_congr
        intro r _
        by_cases h : key r = d
        · simp [h, hdk]
        · simp [h]
      rw [hfil]
    have hcov2 : ∀ r ∈ rs.filter (fun r => !(decide (key r = k))), key r ∈ ks := by
      intro r hr
      have hmem := List.mem_filter.mp hr
      have hne : key r ≠ k := by
        have := hmem.2
        simpa using this
      rcases List.mem_cons.mp (hcov r hmem.1) with h | h
      · exact absurd h hne
      · exact h
    calc
      ((k :: ks).map
          (fun d => ((rs.filter (fun r => decide (key r = d))).map f).sum)).sum
          = ((rs.filter (fun r => decide (key r = k))).map f).sum
              + (ks.map (fun d =>
                  ((rs.filter (fun r => decide (key r = d))).map f).sum)).sum := by
            simp
      _ = ((rs.filter (fun r => decide (key r = k))).map f).sum
              + ((rs.filter (fun r => !(decide (key r = k)))).map f).sum := by
            rw [hmapeq, ih (rs.filter (fun r => !(decide (key r = k)))) hks hcov2]
      _ = (rs.map f).sum :=
            sum_map_filter_split (fun r => decide (key r = k)) f rs

/-- Mapping the constant `1` and summing counts the elements. -/
theorem sum_map_one {β : Type} (rs : List β) :
    (rs.map (fun _ => (1 : ℕ))).sum = rs.length := by
  induction rs with
  | nil => rfl
  | cons r t ih => simp [ih, Nat.add_comm]

/-! ## Daily rollup: key-list facts -/

theorem dailyKeys_nodup (rs : List SalesRecord) : (dailyKeys rs).Nodup :=
  ((List.perm_insertionSort _ _).nodup_iff).mpr (List.nodup_dedup _)

theorem mem_dailyKeys (rs : List SalesRecord) (r : SalesRecord) (hr : r ∈ rs) :
    r.date ∈ dailyKeys rs := by
  unfold dailyKeys
  rw [(List.perm_insertionSort _ _).mem_iff, List.mem_dedup]
  exact List.mem_map_of_mem _ hr

/-! ## Concrete rows used by witnesses and counterexamples -/

/-- A fully-attributed example row (cf. the end-to-end example of the spec). -/
def wRec1 : SalesRecord :=
  { orderId := "A001", paid := 50, tickets := 2, paymentTs := 0,
    utm_source := some "instagram", utm_medium := some "social",
    utm_content := some "story", utm_campaign := some "launch" }

/-- A second fully-attributed row, on the following calendar day. -/
def wRec2 : SalesRecord :=
  { orderId := "A002", paid := 30, tickets := 1, paymentTs := 90000,
    utm_source := some "facebook", utm_medium := some "social",
    utm_content := some "post", utm_campaign := none }

/-- A row whose `utm_source` cell is absent (NaN in the dataframe). -/
def wRecNoUtm : SalesRecord :=
  { orderId := "A003", paid := 10, tickets := 1, paymentTs := 0,
    utm_source := none, utm_medium := some "social",
    utm_content := some "story", utm_campaign := none }

/-! ## C2: the daily rollup partitions the global totals -/

/-- C2: for every non-empty record sequence, summing `Revenue`, `Tickets` and
`Orders` over the daily rollup of `analyze_sales` reproduces the global
summary's `total_sales`, `total_tickets` and `total_orders`. -/
theorem daily_rollup_partitions_totals (rs : List SalesRecord) (h : rs ≠ []) :
    ((analyze_sales rs).daily.map (·.Revenue)).sum
        = (analyze_sales rs).summary.total_sales ∧
    ((analyze_sales rs).daily.map (·.Tickets)).sum
        = (analyze_sales rs).summary.total_tickets ∧
    ((analyze_sales rs).daily.map (·.Orders)).sum
        = (analyze_sales rs).summary.total_orders := by
  refine ⟨?_, ?_, ?_⟩
  · show ((dailyRollup rs).map (·.Revenue)).sum = sumPaid rs
    rw [dailyRollup, List.map_map]
    exact sum_map_fiber (·.paid) SalesRecord.date (dailyKeys rs) rs
      (dailyKeys_nodup rs) (fun r hr => mem_dailyKeys rs r hr)
  · show ((dailyRollup rs).map (·.Tickets)).sum = sumTickets rs
    rw [dailyRollup, List.map_map]
    exact sum_map_fiber (·.tickets) SalesRecord.date (dailyKeys rs) rs
      (dailyKeys_nodup rs) (fun r hr => mem_dailyKeys rs r hr)
  · show ((dailyRollup rs).map (·.Orders)).sum = rs.length
    rw [dailyRollup, List.map_map]
    have h1 := sum_map_fiber (fun _ => (1 : ℕ)) SalesRecord.date (dailyKeys rs) rs
      (dailyKeys_nodup rs) (fun r hr => mem_dailyKeys rs r hr)
    rw [sum_map_one] at h1
    rw [← h1]
    congr 1
    apply List.map_congr_left
    intro d _
    exact (sum_map_one _).symm

/-- Witness for C2 at a concrete two-day input. -/
theorem daily_rollup_partitions_totals_witness :
    ((analyze_sales [wRec1, wRec2]).daily.map (·.Revenue)).sum
        = (analyze_sales [wRec1, wRec2]).summary.total_sales ∧
    ((analyze_sales [wRec1, wRec2]).daily.map (·.Tickets)).sum
        = (analyze_sales [wRec1, wRec2]).summary.total_tickets ∧
    ((analyze_sales [wRec1, wRec2]).daily.map (·.Orders)).sum
        = (analyze_sales [wRec1, wRec2]).summary.total_orders :=
  daily_rollup_partitions_totals [wRec1, wRec2] (by decide)

/-! ## C1: the attribution rollup and the global total -/

/-- When every row carries a full attribution triple, summing the grouped
revenues over the distinct triples reproduces the grand total. -/
theorem utm_fiber_sum (rs : List SalesRecord)
    (htag : ∀ r ∈ rs, r.utmKey.isSome) :
    ((utmKeys rs).map (fun k => sumPaid (groupUtm rs k))).sum = sumPaid rs := by
  have hnd : ((utmKeys rs).map some).Nodup :=
    (List.nodup_dedup _).map (Option.some_injective _)
  have hcov : ∀ r ∈ rs, r.utmKey ∈ (utmKeys rs).map some := by
    intro r hr
    obtain ⟨k, hk⟩ := Option.isSome_iff_exists.mp (htag r hr)
    rw [hk]
    exact List.mem_map_of_mem _
      (List.mem_dedup.mpr (List.mem_filterMap.mpr ⟨r, hr, hk⟩))
  have h := sum_map_fiber (·.paid) SalesRecord.utmKey ((utmKeys rs).map some)
    rs hnd hcov
  rw [List.map_map] at h
  exact h

/-- C1 as amended: for every non-empty record sequence in which every row has
all three of `utm_source`, `utm_medium`, `utm_content` present, the summed
`Revenue` of the attribution rollup equals the global `total_sales`.  (The
grouping drops rows with an absent attribution field, so the unrestricted
statement is false — see the counterexample.) -/
theorem utm_rollup_partitions_sales (rs : List SalesRecord) (h : rs ≠ [])
    (htag : ∀ r ∈ rs, r.utmKey.isSome) :
    ((analyze_sales rs).utm.map (·.Revenue)).sum
        = (analyze_sales rs).summary.total_sales := by
  show ((utmRollup rs).map (·.Revenue)).sum = sumPaid rs
  have hperm : List.Perm ((utmRollup rs).map (·.Revenue))
      ((utmUnsorted rs).map (·.Revenue)) :=
    (List.perm_insertionSort _ _).map _
  rw [hperm.sum_eq, utmUnsorted, List.map_map]
  exact utm_fiber_sum rs htag

/-- Witness for the amended C1 at a concrete fully-attributed input. -/
theorem utm_rollup_partitions_sales_witness :
    ((analyze_sales [wRec1, wRec2]).utm.map (·.Revenue)).sum
        = (analyze_sales [wRec1, wRec2]).summary.total_sales :=
  utm_rollup_partitions_sales [wRec1, wRec2] (by decide) (by decide)

/-- Counterexample to C1 as stated: on the non-empty input
`[wRec1, wRecNoUtm]`, whose second row has an absent `utm_source`, the
grouping drops that row (pandas `groupby` excludes NaN keys), so the
attribution rollup sums to 50 while `total_sales` is 60. -/
theorem utm_rollup_partition_cex :
    ([wRec1, wRecNoUtm] : List SalesRecord) ≠ [] ∧
    ((analyze_sales [wRec1, wRecNoUtm]).utm.map (·.Revenue)).sum
        ≠ (analyze_sales [wRec1, wRecNoUtm]).summary.total_sales := by
  constructor
  · simp
  · show ((utmRollup [wRec1, wRecNoUtm]).map (·.Revenue)).sum
        ≠ sumPaid [wRec1, wRecNoUtm]
    simp +decide [utmRollup, utmUnsorted, utmKeys, groupUtm, sumPaid,
      wRec1, wRecNoUtm, SalesRecord.utmKey, List.filterMap, List.dedup,
      List.filter]

/-! ## C3: the attribution rollup is sorted by revenue, descending -/

/-- C3: for any input, consecutive (indeed all ordered pairs of) entries of
the attribution rollup returned by `analyze_sales` have non-increasing
`Revenue`. -/
theorem utm_rollup_sorted_desc (rs : List SalesRecord) :
    List.Pairwise (fun a b => b.Revenue ≤ a.Revenue) (analyze_sales rs).utm := by
  show List.Pairwise _ (utmRollup rs)
  exact List.sorted_insertionSort utmRowGE (utmUnsorted rs)

/-! ## C4: the average ticket price -/

/-- C4: `avg_ticket` is `0` when `total_tickets` is `0`, and is the exact
quotient `total_sales / total_tickets` (so that multiplying back by
`total_tickets` recovers `total_sales`) when `total_tickets` is positive; the
guard on line 30 means no division by zero is ever evaluated. -/
theorem avg_ticket_safe (rs : List SalesRecord) :
    ((analyze_sales rs).summary.total_tickets = 0 →
      (analyze_sales rs).summary.avg_ticket = 0) ∧
    (0 < (analyze_sales rs).summary.total_tickets →
      (analyze_sales rs).summary.avg_ticket
        = (analyze_sales rs).summary.total_sales
            / ((analyze_sales rs).summary.total_tickets : ℚ)) ∧
    (0 < (analyze_sales rs).summary.total_tickets →
      (analyze_sales rs).summary.avg_ticket
          * ((analyze_sales rs).summary.total_tickets : ℚ)
        = (analyze_sales rs).summary.total_sales) := by
  refine ⟨?_, ?_, ?_⟩
  · intro h
    have h' : sumTickets rs = 0 := h
    show (if 0 < sumTickets rs then sumPaid rs / (sumTickets rs : ℚ) else 0) = 0
    rw [h']
    simp
  · intro h
    have h' : 0 < sumTickets rs := h
    show (if 0 < sumTickets rs then sumPaid rs / (sumTickets rs : ℚ) else 0)
        = sumPaid rs / (sumTickets rs : ℚ)
    rw [if_pos h']
  · intro h
    have h' : 0 < sumTickets rs := h
    show (if 0 < sumTickets rs then sumPaid rs / (sumTickets rs : ℚ) else 0)
          * (sumTickets rs : ℚ)
        = sumPaid rs
    rw [if_pos h']
    exact div_mul_cancel₀ _ (Nat.cast_ne_zero.mpr h'.ne')

/-- Witness for C4 at a concrete input with a positive ticket total. -/
theorem avg_ticket_safe_witness :
    (analyze_sales [wRec1]).summary.avg_ticket
        = (analyze_sales [wRec1]).summary.total_sales
            / ((analyze_sales [wRec1]).summary.total_tickets : ℚ) :=
  (avg_ticket_safe [wRec1]).2.1 (by decide)

/-! ## C5: the comparator -/

/-- C5: `compare_files` returns the signed differences new − old of the two
independently computed summaries (negative values possible, as the final
concrete conjunct shows) and, as `new_orders`, exactly the order identifiers
occurring in the new file but not in the old one. -/
theorem compare_files_spec (oldRecs newRecs : List SalesRecord) :
    (compare_files oldRecs newRecs).sales_diff
        = (analyze_sales newRecs).summary.total_sales
            - (analyze_sales oldRecs).summary.total_sales ∧
    (compare_files oldRecs newRecs).tickets_diff
        = ((analyze_sales newRecs).summary.total_tickets : ℤ)
            - ((analyze_sales oldRecs).summary.total_tickets : ℤ) ∧
    (compare_files oldRecs newRecs).orders_diff
        = ((analyze_sales newRecs).summary.total_orders : ℤ)
            - ((analyze_sales oldRecs).summary.total_orders : ℤ) ∧
    (∀ id, id ∈ (compare_files oldRecs newRecs).new_orders ↔
      id ∈ orderIds newRecs ∧ id ∉ orderIds oldRecs) ∧
    (compare_files [wRec1] []).sales_diff < 0 := by
  refine ⟨rfl, rfl, rfl, ?_, ?_⟩
  · intro id
    show id ∈ (orderIds newRecs).dedup.filter
        (fun id => decide (id ∉ orderIds oldRecs)) ↔ _
    rw [List.mem_filter, List.mem_dedup]
    constructor
    · rintro ⟨h1, h2⟩
      exact ⟨h1, by simpa using h2⟩
    · rintro ⟨h1, h2⟩
      exact ⟨h1, by simpa using h2⟩
  · show (analyze_sales []).summary.total_sales
        - (analyze_sales [wRec1]).summary.total_sales < 0
    show sumPaid [] - sumPaid [wRec1] < 0
    norm_num [sumPaid, wRec1]

/-! ## C9: duplicate order identifiers -/

/-- A row sharing `wRec1`'s order identifier but with different amounts. -/
def wRecDup : SalesRecord :=
  { orderId := "A001", paid := 20, tickets := 3, paymentTs := 50,
    utm_source := some "instagram", utm_medium := some "social",
    utm_content := some "story", utm_campaign := none }

/-- C9: `analyze_sales` counts and sums every row independently of duplicate
order identifiers (`total_orders = len(df)`, sums over all rows), while
`compare_files` collapses identifiers into a set, so `new_orders` is
duplicate-free; the concrete conjuncts exhibit this on a file containing
`"A001"` twice. -/
theorem duplicate_order_ids (rs oldRecs : List SalesRecord) :
    (analyze_sales rs).summary.total_orders = rs.length ∧
    (analyze_sales rs).summary.total_sales = (rs.map (·.paid)).sum ∧
    (analyze_sales rs).summary.total_tickets = (rs.map (·.tickets)).sum ∧
    (compare_files oldRecs rs).new_orders.Nodup ∧
    (analyze_sales [wRec1, wRecDup]).summary.total_orders = 2 ∧
    (analyze_sales [wRec1, wRecDup]).summary.total_sales = 70 ∧
    (compare_files [] [wRec1, wRecDup]).new_orders = ["A001"] := by
  refine ⟨rfl, rfl, rfl, (List.nodup_dedup _).filter _, by decide, ?_, by decide⟩
  show sumPaid [wRec1, wRecDup] = 70
  norm_num [sumPaid, wRec1, wRecDup]

/-! ## C6: format selection at ingestion -/

/-- The parsing formats the ingestion stage could use. -/
inductive ParseFormat where
  | spreadsheet (sheetIndex : ℕ)
  | semicolonDelimited
deriving DecidableEq

/-- Whether the path ends in the delimited-text extension `.csv`. -/
def endsWithCsv (filepath : String) : Bool :=
  ".csv".data.isSuffixOf filepath.data

/-- Line 17 of `analyze_sales`: `df = pd.read_excel(filepath)`.  Every input
path is read as a spreadsheet workbook, first sheet (`pd.read_excel`'s
default `sheet_name=0`); nothing in `analyze_sales` inspects the path. -/
def ingestFormat (filepath : String) : ParseFormat :=
  ParseFormat.spreadsheet 0

/-- Modelled from the spec (§4.1 format selection): "if the path ends with a
delimited-text extension, parse using semicolon as the field separator;
otherwise parse as a structured spreadsheet sheet (first sheet only)". -/
def specIngestFormat (filepath : String) : ParseFormat :=
  if endsWithCsv filepath then ParseFormat.semicolonDelimited
  else ParseFormat.spreadsheet 0

/-- Counterexample to C6: on the path `"vendas.csv"`, which ends with a
delimited-text extension, the claimed selection rule demands
semicolon-delimited parsing, but the code hands every path to the
spreadsheet reader. -/
theorem ingest_format_cex :
    endsWithCsv "vendas.csv" = true ∧
    specIngestFormat "vendas.csv" = ParseFormat.semicolonDelimited ∧
    ingestFormat "vendas.csv" = ParseFormat.spreadsheet 0 ∧
    ingestFormat "vendas.csv" ≠ specIngestFormat "vendas.csv" := by
  decide

/-- C6 as amended: ingestion performs no format selection — every input
path, whatever its extension, is parsed as a structured spreadsheet, first
sheet only. -/
theorem ingest_format_always_spreadsheet (filepath : String) :
    ingestFormat filepath = ParseFormat.spreadsheet 0 := rfl

/-! ## C7: what the HTML export embeds -/

/-- A row on calendar day `i`, used to build multi-day inputs. -/
def dayRec (i : ℕ) : SalesRecord :=
  { orderId := "D", paid := 1, tickets := 1, paymentTs := 86400 * i,
    utm_source := some "instagram", utm_medium := some "social",
    utm_content := some "story", utm_campaign := none }

/-- Six rows on six distinct calendar days. -/
def sixDayRecs : List SalesRecord :=
  [dayRec 0, dayRec 1, dayRec 2, dayRec 3, dayRec 4, dayRec 5]

/-- Counterexample to C7: on an input spanning six calendar days the HTML
export embeds six daily dates — lines 154–156 take all of `data['daily']`,
not its top 5. -/
theorem dashboard_daily_not_top5_cex :
    (update_dashboard_html (analyze_sales sixDayRecs)).daily_dates.length = 6 ∧
    ¬ (update_dashboard_html (analyze_sales sixDayRecs)).daily_dates.length ≤ 5 := by
  decide

/-- C7 as amended: the HTML export embeds the daily dates, revenues and
tickets of ALL daily-rollup entries (one per calendar day present), and at
most the top 5 attribution sources and revenues. -/
theorem dashboard_embed_shape (rs : List SalesRecord) :
    (update_dashboard_html (analyze_sales rs)).daily_dates.length
        = (analyze_sales rs).daily.length ∧
    (update_dashboard_html (analyze_sales rs)).daily_revenue.length
        = (analyze_sales rs).daily.length ∧
    (update_dashboard_html (analyze_sales rs)).daily_tickets.length
        = (analyze_sales rs).daily.length ∧
    (update_dashboard_html (analyze_sales rs)).utm_labels.length ≤ 5 ∧
    (update_dashboard_html (analyze_sales rs)).utm_values.length ≤ 5 ∧
    (update_dashboard_html (analyze_sales rs)).utm_labels
        = ((analyze_sales rs).utm.take 5).map (fun u => orDirect u.Source) ∧
    (update_dashboard_html (analyze_sales rs)).utm_values
        = ((analyze_sales rs).utm.take 5).map (·.Revenue) := by
  refine ⟨?_, ?_, ?_, ?_, ?_, rfl, rfl⟩
  · simp [update_dashboard_html]
  · simp [update_dashboard_html]
  · simp [update_dashboard_html]
  · show (((analyze_sales rs).utm.take 5).map (fun u => orDirect u.Source)).length ≤ 5
    rw [List.length_map, List.length_take]
    exact min_le_left _ _
  · show (((analyze_sales rs).utm.take 5).map (·.Revenue)).length ≤ 5
    rw [List.length_map, List.length_take]
    exact min_le_left _ _

/-! ## C8: command-line branching -/

/-- Counterexample to C8: two invocations with the same argument count
(three argv entries) take different branches — an empty-string second path
argument is falsy under the `if old_file:` test on line 386, so the run is
routed to single-file mode, not comparison mode.  So the branch is not a
function of the argument count alone. -/
theorem main_arg_branching_cex :
    mainAction ["analytics.py", "vendas.xlsx", ""]
        = MainAction.single "vendas.xlsx" ∧
    mainAction ["analytics.py", "vendas.xlsx", "old.xlsx"]
        = MainAction.compareTwo "old.xlsx" "vendas.xlsx" ∧
    mainAction ["analytics.py", "vendas.xlsx", ""]
        ≠ MainAction.compareTwo "" "vendas.xlsx" := by
  decide

/-- C8 as amended: with no input path (`len(sys.argv) < 2`) the program
prints the usage message and exits with code 1, producing no other effect;
with one path it runs single-file mode on that path; with two (or more)
paths it runs comparison mode on the first two whenever the second path is
non-empty, while an empty-string second path is falsy under `if old_file:`
and falls back to single-file mode. -/
theorem main_arg_branching (prog p q : String) (rest : List String)
    (hq : q ≠ "") :
    mainEffects [prog] = [Effect.printUsage, Effect.exitCode 1] ∧
    Effect.printReport ∉ mainEffects [prog] ∧
    mainAction [prog] = MainAction.usage ∧
    mainAction [prog, p] = MainAction.single p ∧
    mainAction (prog :: p :: q :: rest) = MainAction.compareTwo q p ∧
    mainAction (prog :: p :: "" :: rest) = MainAction.single p := by
  refine ⟨rfl, by simp [mainEffects], rfl, rfl, ?_, ?_⟩
  · show (if q = "" then MainAction.single p else MainAction.compareTwo q p)
        = MainAction.compareTwo q p
    rw [if_neg hq]
  · show (if ("" : String) = "" then MainAction.single p
        else MainAction.compareTwo "" p) = MainAction.single p
    rw [if_pos rfl]

/-! ## C10: only single-file mode writes the dashboard file -/

/-- Counterexample to C10: invoked with two path arguments of which the
second is the empty string, the program is routed by the `if old_file:`
truthiness test to the single-file branch and does write `index.html`. -/
theorem compare_mode_no_html_write_cex :
    Effect.writeHtml "index.html"
      ∈ mainEffects ["analytics.py", "vendas.xlsx", ""] := by
  decide

/-- C10 as amended: `index.html` is written exactly on the single-file
branch.  Invoked with two path arguments whose second is non-empty (the
comparison branch), the run prints the report and writes no HTML file at any
path, leaving an existing `index.html` unchanged; invoked with a single
path — or with an empty-string second path, which the `if old_file:` test
treats as absent — it does write `index.html`. -/
theorem compare_mode_no_html_write (prog p q : String) (rest : List String)
    (hq : q ≠ "") :
    (∀ path, Effect.writeHtml path ∉ mainEffects (prog :: p :: q :: rest)) ∧
    Effect.printReport ∈ mainEffects (prog :: p :: q :: rest) ∧
    Effect.writeHtml "index.html" ∈ mainEffects [prog, p] := by
  refine ⟨?_, ?_, ?_⟩ <;> simp [mainEffects, hq]

/-! ## Instantiated witnesses for the universally quantified theorems -/

/-- Witness for C3 at a concrete input. -/
theorem utm_rollup_sorted_desc_witness :
    List.Pairwise (fun a b => b.Revenue ≤ a.Revenue)
      (analyze_sales [wRec1, wRec2]).utm :=
  utm_rollup_sorted_desc [wRec1, wRec2]

/-- Witness for C5 at a concrete instance: a shrinking file yields a negative
sales delta. -/
theorem compare_files_spec_witness :
    (compare_files [wRec1] []).sales_diff < 0 :=
  (compare_files_spec [wRec1] [wRec2]).2.2.2.2

/-- Witness for the amended C6 at a concrete spreadsheet path. -/
theorem ingest_format_always_spreadsheet_witness :
    ingestFormat "vendas.xlsx" = ParseFormat.spreadsheet 0 :=
  ingest_format_always_spreadsheet "vendas.xlsx"

/-- Witness for the amended C7 at a concrete input. -/
theorem dashboard_embed_shape_witness :
    (update_dashboard_html (analyze_sales [wRec1])).daily_dates.length
        = (analyze_sales [wRec1]).daily.length :=
  (dashboard_embed_shape [wRec1]).1

/-- Witness for the amended C8 at concrete arguments with a non-empty second
path. -/
theorem main_arg_branching_witness :
    mainAction ["analytics.py", "vendas.xlsx", "old.xlsx"]
        = MainAction.compareTwo "old.xlsx" "vendas.xlsx" :=
  (main_arg_branching "analytics.py" "vendas.xlsx" "old.xlsx" []
    (by decide)).2.2.2.2.1

/-- Witness for C9 at concrete inputs. -/
theorem duplicate_order_ids_witness :
    (analyze_sales [wRec1, wRecDup]).summary.total_orders
        = ([wRec1, wRecDup] : List SalesRecord).length :=
  (duplicate_order_ids [wRec1, wRecDup] []).1

/-- Witness for the amended C10 at concrete arguments with a non-empty
second path. -/
theorem compare_mode_no_html_write_witness :
    Effect.writeHtml "index.html" ∈ mainEffects ["analytics.py", "vendas.xlsx"] :=
  (compare_mode_no_html_write "analytics.py" "vendas.xlsx" "old.xlsx" []
    (by decide)).2.2
